import Mathlib

/-!
Verification development for the cleanroom execution engine.

Shallow embedding of the core of the repository:
  * `cleanroom/command.py`   — the `Command` base class,
  * `cleanroom/runcontext.py` — `RunContext`, its pickling helpers, the
    substitution table, the hook registry,
  * `cleanroom/commands/_teardown.py` — the finalize/commit protocol,
  * `cleanroom/commands/sed.py` — the `sed` command,
  * `cleanroom/generator/commands/set_timezone.py` — the `set_timezone` command.

Python dictionaries are modelled as association lists with insertion-order
semantics (assignment replaces a value in place, new keys append at the end).
External process invocations, `os.chdir`, and pickling are modelled as an
event trace.  Helpers that live in modules outside the provided sources
(`cleanroom/context.py`, `cleanroom/parser.py`, `cleanroom/helper/...`) are
modelled from the specification and marked as such in their doc comments.
-/

/-! ## Association lists: the embedding of Python dicts -/

/-- Lookup in a Python dict (first matching key). -/
def alistGet {α : Type} : List (String × α) → String → Option α
  | [], _ => none
  | (k0, v) :: rest, k => if k0 = k then some v else alistGet rest k

/-- Python dict assignment `d[k] = v`: replace the value in place if the key
is present, otherwise append the new binding at the end. -/
def alistInsert {α : Type} : List (String × α) → String → α → List (String × α)
  | [], k, v => [(k, v)]
  | (k0, v0) :: rest, k, v =>
      if k0 = k then (k, v) :: rest else (k0, v0) :: alistInsert rest k v

/-- Python `d.setdefault(k, dflt)`: return the stored value (inserting `dflt`
if the key was absent) together with the updated dict. -/
def alistSetdefault {α : Type} (l : List (String × α)) (k : String) (dflt : α) :
    α × List (String × α) :=
  match alistGet l k with
  | some v => (v, l)
  | none => (dflt, l ++ [(k, dflt)])

/-- Python `hooks.setdefault(k, []).append(v)`: append `v` to the list stored
under `k`, creating the key with `[v]` if absent. -/
def alistAppendAt {α : Type} : List (String × List α) → String → α → List (String × List α)
  | [], k, v => [(k, [v])]
  | (k0, vs) :: rest, k, v =>
      if k0 = k then (k0, vs ++ [v]) :: rest else (k0, vs) :: alistAppendAt rest k v

theorem alistGet_insert_self {α : Type} (l : List (String × α)) (k : String) (v : α) :
    alistGet (alistInsert l k v) k = some v := by
  induction l with
  | nil => simp [alistInsert, alistGet]
  | cons p rest ih =>
      by_cases h : p.1 = k
      · simp [alistInsert, alistGet, h]
      · simp [alistInsert, alistGet, h, ih]

theorem alistGet_insert_ne {α : Type} (l : List (String × α)) (k k' : String) (v : α)
    (h : k' ≠ k) : alistGet (alistInsert l k v) k' = alistGet l k' := by
  induction l with
  | nil => simp [alistInsert, alistGet, Ne.symm h]
  | cons p rest ih =>
      by_cases hp : p.1 = k
      · subst hp
        simp [alistInsert, alistGet, Ne.symm h]
      · by_cases hp' : p.1 = k'
        · simp [alistInsert, alistGet, hp, hp', h]
        · simp [alistInsert, alistGet, hp, hp', ih]

theorem alistGet_append_single_self {α : Type} (l : List (String × α)) (k : String) (v : α)
    (h : alistGet l k = none) : alistGet (l ++ [(k, v)]) k = some v := by
  induction l with
  | nil => simp [alistGet]
  | cons p rest ih =>
      by_cases hp : p.1 = k
      · simp [alistGet, hp] at h
      · simp [alistGet, hp] at h ⊢
        exact ih h

theorem alistGet_append_single_ne {α : Type} (l : List (String × α)) (k k' : String) (v : α)
    (h : k' ≠ k) : alistGet (l ++ [(k, v)]) k' = alistGet l k' := by
  induction l with
  | nil => simp [alistGet, Ne.symm h]
  | cons p rest ih =>
      by_cases hp : p.1 = k'
      · simp [alistGet, hp]
      · simp [alistGet, hp, ih]

theorem alistSetdefault_fst {α : Type} (l : List (String × α)) (k : String) (dflt : α) :
    (alistSetdefault l k dflt).1 = (alistGet l k).getD dflt := by
  unfold alistSetdefault
  cases alistGet l k <;> simp

theorem alistGet_setdefault_self {α : Type} (l : List (String × α)) (k : String) (dflt : α) :
    alistGet (alistSetdefault l k dflt).2 k = some ((alistGet l k).getD dflt) := by
  unfold alistSetdefault
  cases h : alistGet l k with
  | none => simpa using alistGet_append_single_self l k dflt h
  | some v => simpa using h

theorem alistGet_setdefault_ne {α : Type} (l : List (String × α)) (k k' : String) (dflt : α)
    (h : k' ≠ k) : alistGet (alistSetdefault l k dflt).2 k' = alistGet l k' := by
  unfold alistSetdefault
  cases alistGet l k with
  | none => simpa using alistGet_append_single_ne l k k' dflt h
  | some v => simp

/-! ## Commands and the pickling protocol (`command.py`, `runcontext.py`) -/

/-- A command instance (`cleanroom/command.py`).  `oid` models Python object
identity, so two structurally similar instances with different `oid` are
distinct objects; `name` is the registration identity used as persistence
key. -/
structure Command where
  oid : Nat
  name : String
  syntax_string : String
  help_string : String
deriving DecidableEq, Repr

namespace Parser

/-- Modelled from the spec: `cleanroom/parser.py` is not among the sources.
`Parser.command(name)` resolves a command name through the global registry to
the singleton instance registered under that name and fails (here: `none`) if
the name is unknown. -/
def command (registry : List Command) (n : String) : Option Command :=
  registry.find? (fun c => c.name = n)

end Parser

/-- The object graph nodes seen by the pickler: either a live `Command`
instance or any other (opaque) pickled object. -/
inductive PickleObj where
  | commandObj (c : Command)
  | plainObj (payload : String)
deriving DecidableEq, Repr

/-- `_RunContextPickler.persistent_id`: commands are treated specially when
pickling and replaced by a `("Command", name)` token; everything else is
pickled normally (`None`). -/
def persistent_id : PickleObj → Option (String × String)
  | .commandObj c => some ("Command", c.name)
  | .plainObj _ => none

/-- How one node of the object graph is written to the artifact: either as a
persistent-reference token or by value. -/
inductive SerializedObj where
  | ref (pid : String × String)
  | byValue (o : PickleObj)
deriving DecidableEq, Repr

/-- The pickle protocol applied to one node: nodes with a persistent id are
written as reference tokens, the rest by value. -/
def serializeObj (o : PickleObj) : SerializedObj :=
  match persistent_id o with
  | some pid => .ref pid
  | none => .byValue o

/-- `_RunContextUnpickler.persistent_load`: a `"Command"`-tagged token is
resolved through the global registry (which fails if the name is unknown);
any other tag raises `pickle.UnpicklingError("Unsupported persistent
object.")`. -/
def persistent_load (registry : List Command) (pid : String × String) :
    Except String Command :=
  if pid.1 = "Command" then
    match Parser.command registry pid.2 with
    | some c => Except.ok c
    | none => Except.error ("Command not found: " ++ pid.2)
  else
    Except.error "Unsupported persistent object."

/-- `Command._validate_no_arguments` (`command.py:36-43`), translated
faithfully: the source *constructs* `ex.ParseError(...)` objects when
arguments are present but never raises them (there is no `raise` statement,
unlike e.g. `sed.py`), so the function always returns the dependency `None`.
The first component collects the error objects that are constructed and
immediately discarded; the second is the returned dependency. -/
def validate_no_arguments (name : String) (args : List String)
    (kwargs : List (String × String)) : List String × Option Unit :=
  ((if args.length ≠ 0 then [name ++ " does not take arguments."] else []) ++
   (if kwargs.length ≠ 0 then [name ++ " does not take keyword arguments."] else []),
   none)

/-! ## The global build context and the run context data model -/

/-- Modelled from the spec: `cleanroom/context.py` is not among the sources.
The global context object resolves per-system directories (staged filesystem
root, staged system directory, transient checkout directory), knows the
systems directory, the work repository for the content-addressed store, and
the path of the ostree binary.  `currentSystem` is the system the context is
currently set up for; `fs_directory(None)` resolves to its root. -/
structure Ctx where
  currentSystem : String
  fsRoot : String → String
  systemsDirectory : String
  checkoutDirectoryOf : String → String
  systemDirectoryOf : String → String
  workRepositoryDirectory : String
  ostreeBinary : String

/-- Modelled from the spec: `ctx.fs_directory(system)` resolves the staged
filesystem root for `system`, defaulting to the active system. -/
def Ctx.fs_directory (c : Ctx) (system : Option String) : String :=
  c.fsRoot (system.getD c.currentSystem)

/-- A deferred, fully-bound command invocation (`Parser.create_execute_object`
result): command name, arguments, source location and message, fixed at
registration time. -/
structure HookEntry where
  file : String
  line : Int
  offset : Int
  command : String
  args : List String
  kwargs : List (String × String)
  message : String
deriving DecidableEq, Repr

/-- The attribute record of a `RunContext` instance (`runcontext.py:46-66`).
`ctx` is `Option` because pickling temporarily disconnects it and an
unpickled base context carries no live context handle.  `file_name_attr`,
`line_number_attr` and `line_offset_attr` model the *instance* attributes
created by `set_command` (`self.file_name = file_name`, ...), which are
absent on a fresh context; `line_number_priv`/`line_offset_priv` model
`_line_number`/`_line_offset` set by `reset_command`. -/
structure RCData where
  ctx : Option Ctx
  system : String
  base_system : Option String
  timestamp : String
  hooks : List (String × List HookEntry)
  hooks_that_already_ran : List String
  substitutions : List (String × String)
  local_substitutions : List (String × String)
  flags : List (String × String)
  command : Option String
  file_name_attr : Option String
  line_number_attr : Option Int
  line_offset_attr : Option Int
  line_number_priv : Int
  line_offset_priv : Int

/-- A run context: its attribute record plus the (possibly absent) base
context installed by `unpickle_base_context`. -/
inductive RunContext where
  | mk (data : RCData) (base : Option RunContext)

def RunContext.data : RunContext → RCData
  | .mk d _ => d

def RunContext.base_context : RunContext → Option RunContext
  | .mk _ b => b

def RunContext.system (rc : RunContext) : String := rc.data.system

def RunContext.timestamp (rc : RunContext) : String := rc.data.timestamp

def RunContext.hooks (rc : RunContext) : List (String × List HookEntry) := rc.data.hooks

def RunContext.alreadyRan (rc : RunContext) : List String := rc.data.hooks_that_already_ran

/-- `RunContext.fs_directory` (`runcontext.py:89-91`): delegates to the global
context.  Calling it on a disconnected context is a crash in the source
(never reached); the `""` branch is the stand-in for that unreachable state. -/
def RunContext.fs_directory (rc : RunContext) (system : Option String) : String :=
  match rc.data.ctx with
  | some c => c.fs_directory system
  | none => ""

/-- `self.ctx.systems_directory()` as used by `run_hooks`. -/
def RunContext.ctxSystemsDirectory (rc : RunContext) : String :=
  match rc.data.ctx with
  | some c => c.systemsDirectory
  | none => ""

/-- Modelled from the spec: `run_context.checkout_directory()` resolves the
transient checkout/overlay directory of the current system (the resolver
lives in the missing context module). -/
def RunContext.checkout_directory (rc : RunContext) : String :=
  match rc.data.ctx with
  | some c => c.checkoutDirectoryOf rc.data.system
  | none => ""

/-- Modelled from the spec: `run_context.system_directory()` resolves the
staged system directory of the current system (the resolver lives in the
missing context module). -/
def RunContext.system_directory (rc : RunContext) : String :=
  match rc.data.ctx with
  | some c => c.systemDirectoryOf rc.data.system
  | none => ""

/-- `run_context.ctx.binary(context.Binaries.OSTREE)`. -/
def RunContext.ctxOstreeBinary (rc : RunContext) : String :=
  match rc.data.ctx with
  | some c => c.ostreeBinary
  | none => ""

/-- `run_context.ctx.work_repository_directory()`. -/
def RunContext.ctxWorkRepositoryDirectory (rc : RunContext) : String :=
  match rc.data.ctx with
  | some c => c.workRepositoryDirectory
  | none => ""

/-! ## Substitutions (`runcontext.py:68-72, 171-191`) -/

/-- `RunContext.set_substitution`: `local=True` writes the per-system tier,
otherwise the shared tier. -/
def RunContext.set_substitution (rc : RunContext) (key value : String)
    (localTier : Bool) : RunContext :=
  if localTier then
    .mk { rc.data with local_substitutions := alistInsert rc.data.local_substitutions key value }
      rc.base_context
  else
    .mk { rc.data with substitutions := alistInsert rc.data.substitutions key value }
      rc.base_context

/-- `RunContext.substitution`: the local tier shadows the global tier. -/
def RunContext.substitution (rc : RunContext) (key : String) : Option String :=
  match alistGet rc.data.local_substitutions key with
  | some v => some v
  | none => alistGet rc.data.substitutions key

/-- `RunContext.has_substitution`. -/
def RunContext.has_substitution (rc : RunContext) (key : String) : Bool :=
  (alistGet rc.data.local_substitutions key).isSome ||
    (alistGet rc.data.substitutions key).isSome

/-- `RunContext._setup_substitutions` (`runcontext.py:68-72`): re-applied on
every (re)initialization; `TIMESTAMP` is global, `SYSTEM`, `ROOT` and
`BASE_SYSTEM` are local-tier, and `BASE_SYSTEM` is set to the empty string. -/
def RunContext.setup_substitutions (rc : RunContext) : RunContext :=
  let rc := rc.set_substitution "TIMESTAMP" rc.data.timestamp false
  let rc := rc.set_substitution "SYSTEM" rc.data.system true
  let rc := rc.set_substitution "ROOT" (rc.fs_directory none) true
  rc.set_substitution "BASE_SYSTEM" "" true

/-- `RunContext.__init__` (`runcontext.py:46-66`): fresh per-build state,
then `reset_command`, then `_setup_substitutions`. -/
def RunContext.init (ctx : Ctx) (system : String) (timestamp : String) : RunContext :=
  RunContext.setup_substitutions
    (.mk { ctx := some ctx
           system := system
           base_system := none
           timestamp := timestamp
           hooks := []
           hooks_that_already_ran := []
           substitutions := []
           local_substitutions := []
           flags := []
           command := none
           file_name_attr := none
           line_number_attr := none
           line_offset_attr := none
           line_number_priv := -1
           line_offset_priv := -1 } none)

/-- `RunContext._install_base_context` (`runcontext.py:107-115`): wire the
base, overwrite `timestamp`, `hooks`, `substitutions` and `flags` with the
base's values, then re-apply the critical substitutions for the current
system. -/
def RunContext.install_base_context (rc : RunContext) (base : RunContext) : RunContext :=
  RunContext.setup_substitutions
    (.mk { rc.data with
            timestamp := base.data.timestamp
            hooks := base.data.hooks
            substitutions := base.data.substitutions
            flags := base.data.flags } (some base))

/-! ## Commands on the context, process execution and the event trace -/

/-- An external process invocation as assembled by `RunContext.run`
(`runcontext.py:193-200`): `outside=False` adds `chroot=self.fs_directory()`
to the keyword arguments. -/
structure RunCall where
  argv : List String
  chroot : Option String
  work_directory : Option String
deriving DecidableEq, Repr

/-- `RunContext.run`: asserts no explicit `chroot` kwarg, injects the staged
filesystem root as chroot unless `outside` is set, and forwards to the
process-execution helper. -/
def RunContext.runCall (rc : RunContext) (argv : List String) (outside : Bool)
    (workDirectory : Option String) : RunCall :=
  { argv := argv
    chroot := if outside then none else some (rc.fs_directory none)
    work_directory := workDirectory }

/-- Observable effects of the engine: working-directory changes, execution of
a bound hook entry, persisting the context, and external process runs. -/
inductive Event where
  | chdir (dir : String)
  | execEntry (e : HookEntry)
  | pickleSave (saved : RunContext)
  | processRun (call : RunCall)

/-- `RunContext._add_hook` (`runcontext.py:136-142`):
`self.hooks.setdefault(hook, []).append(exec_object)`. -/
def RunContext.add_hook (rc : RunContext) (hook : String) (execObject : HookEntry) :
    RunContext :=
  .mk { rc.data with hooks := alistAppendAt rc.data.hooks hook execObject } rc.base_context

/-- `RunContext.run_hooks` (`runcontext.py:151-169`): skip if the hook name
already ran; otherwise fetch (and `setdefault`) the entry list, return early
when it is empty, else change into the systems directory before executing
each entry in registration order and finally record the hook name as
already-ran. -/
def RunContext.run_hooks (rc : RunContext) (hook : String) : RunContext × List Event :=
  if hook ∈ rc.data.hooks_that_already_ran then (rc, [])
  else
    let sd := alistSetdefault rc.data.hooks hook []
    let rc1 : RunContext := .mk { rc.data with hooks := sd.2 } rc.base_context
    if sd.1.isEmpty then (rc1, [])
    else
      (.mk { rc1.data with
              hooks_that_already_ran := rc1.data.hooks_that_already_ran ++ [hook] }
         rc1.base_context,
       (sd.1.map (fun e => [Event.chdir rc1.ctxSystemsDirectory, Event.execEntry e])).flatten)

/-- The events `run_hooks` produces on its first effective run: for each
entry registered under the hook, in registration order, a `chdir` to the
systems directory followed by the entry's execution. -/
def RunContext.hookTrace (rc : RunContext) (hook : String) : List Event :=
  (((alistGet rc.data.hooks hook).getD []).map
    (fun e => [Event.chdir rc.ctxSystemsDirectory, Event.execEntry e])).flatten

/-- `RunContext.set_command` (`runcontext.py:121-128`): asserts that no
command is current, then stores the command name and — crucially — assigns
the *instance* attributes `file_name`, `line_number` and `line_offset`.  The
failed assertion is modelled as `Except.error`. -/
def RunContext.set_command (rc : RunContext) (commandName fileName : String)
    (lineNumber lineOffset : Int) : Except String RunContext :=
  match rc.data.command with
  | some _ => Except.error "assert(self._command is None) failed"
  | none =>
      Except.ok (.mk { rc.data with
                        command := some commandName
                        file_name_attr := some fileName
                        line_number_attr := some lineNumber
                        line_offset_attr := some lineOffset } rc.base_context)

/-- `RunContext.reset_command` (`runcontext.py:130-134`): clears `_command`
and the *underscored* `_line_number`/`_line_offset` fields; it does not touch
the `file_name` instance attribute created by `set_command`. -/
def RunContext.reset_command (rc : RunContext) : RunContext :=
  .mk { rc.data with
         command := none
         line_number_priv := -1
         line_offset_priv := -1 } rc.base_context

/-- Modelled from the spec: `cleanroom.helper.generic.file.file_name` (the
helper module is not among the sources) maps an inside path to the outside
path below the active system's staged filesystem root. -/
def fileFileName (rc : RunContext) (path : String) : String :=
  rc.fs_directory none ++ path

/-- Calling `run_context.file_name(path)` under Python attribute lookup: the
instance attribute `file_name` (a string, created by `set_command`) shadows
the class method of the same name, so the call raises a `TypeError` once
`set_command` has run; otherwise the method body of `runcontext.py:101-105`
executes (relative paths are returned unchanged, absolute paths are mapped
through the file helper). -/
def RunContext.call_file_name (rc : RunContext) (path : String) : Except String String :=
  match rc.data.file_name_attr with
  | some _ => Except.error "TypeError: str object is not callable"
  | none =>
      Except.ok (if path.startsWith "/" then fileFileName rc path else path)

/-! ## Persistence (`runcontext.py:202-228`) -/

/-- The object graph that `RunContext.pickle` writes: the context handle is
disconnected (`self.ctx = None`) and the already-ran hook set is reset to
empty before dumping; both are restored on the live object afterwards. -/
def RunContext.savedOf (rc : RunContext) : RunContext :=
  .mk { rc.data with ctx := none, hooks_that_already_ran := [] } rc.base_context

/-- `RunContext.pickle`: emits the save of the detached state; the live
context is unchanged afterwards because `ctx` and `hooks_that_already_ran`
are restored after the dump. -/
def RunContext.pickleOp (rc : RunContext) : RunContext × List Event :=
  (rc, [Event.pickleSave rc.savedOf])

/-- `RunContext.unpickle_base_context` (`runcontext.py:220-228`): load the
base context from its pickle jar and install it. -/
def RunContext.unpickle_base_context (rc : RunContext) (loaded : RunContext) : RunContext :=
  rc.install_base_context loaded

/-! ## The `_teardown` command (`commands/_teardown.py`) -/

/-- `_TeardownCommand._unmount_system_directory`: unmount the staged system
directory, but only when the transient checkout directory exists
(`os.path.isdir`); `isdir` is the ambient filesystem query. -/
def teardownUnmount (isdir : String → Bool) (rc : RunContext) : List Event :=
  if isdir rc.checkout_directory then
    [Event.processRun (rc.runCall ["/usr/bin/umount", rc.system_directory] false none)]
  else
    []

/-- `_TeardownCommand._store_to_ostree`: commit the checkout directory when
it exists, otherwise the staged system directory, with branch = system name
and subject = build timestamp, as an outside invocation with the commit
source as working directory. -/
def teardownStore (isdir : String → Bool) (rc : RunContext) : List Event :=
  let to_commit :=
    if isdir rc.checkout_directory then rc.checkout_directory else rc.system_directory
  [Event.processRun (rc.runCall
    [rc.ctxOstreeBinary,
     "--repo=" ++ rc.ctxWorkRepositoryDirectory,
     "commit",
     "--branch", rc.data.system,
     "--subject", rc.data.timestamp,
     "--add-metadata-string=\"timestamp=" ++ rc.data.timestamp ++ "\""]
    true (some to_commit))]

/-- `_TeardownCommand.__call__` (`_teardown.py:21-29`): run the `_teardown`
hooks, then the `testing` hooks, pickle the context, unmount the transient
checkout, and commit to the store. -/
def teardownCall (isdir : String → Bool) (rc : RunContext) : RunContext × List Event :=
  let r1 := rc.run_hooks "_teardown"
  let r2 := r1.1.run_hooks "testing"
  let r3 := r2.1.pickleOp
  (r3.1, r1.2 ++ r2.2 ++ r3.2 ++ teardownUnmount isdir r3.1 ++ teardownStore isdir r3.1)

/-! ## The `sed` command (`commands/sed.py`) -/

/-- `SedCommand.__call__` (`sed.py:27-32`): map the file argument through the
file helper, then invoke `/usr/bin/sed -i -e <pattern> <mapped file>` as an
*outside* invocation (`outside=True`, hence no chroot). -/
def sedCall (rc : RunContext) (pattern fileArg : String) : RunCall :=
  rc.runCall ["/usr/bin/sed", "-i", "-e", pattern, fileFileName rc fileArg] true none

/-! ## The `set_timezone` command (`generator/commands/set_timezone.py`) -/

/-- A generate error (`cleanroom.exceptions.GenerateError`): the message it
was raised with. -/
structure GenerateError where
  message : String
deriving DecidableEq, Repr

/-- A filesystem mutation issued through `system_context.execute`. -/
inductive FsAction where
  | remove (path : String)
  | symlink (target linkName baseDirectory : String)
deriving DecidableEq, Repr

/-- The slice of the generator system context that `set_timezone` touches.
Modelled from the spec: the `exists` file helper is not among the sources; it
checks existence of a path resolved against a base directory inside the
staged root. -/
structure SystemContext where
  fsExists : String → String → Bool

/-- `SetTimezoneCommand.__call__` (`set_timezone.py:29-43`): when the
zoneinfo path of the requested timezone does not exist, raise a
`GenerateError` naming the timezone before any mutation; otherwise remove
`/etc/localtime` and create the relative symlink. -/
def setTimezoneCall (sc : SystemContext) (timezone : String) :
    Except GenerateError (List FsAction) :=
  let etc := "/etc"
  let localtime := "localtime"
  let etc_localtime := etc ++ "/" ++ localtime
  let full_timezone := "../usr/share/zoneinfo/" ++ timezone
  if sc.fsExists etc full_timezone then
    Except.ok [FsAction.remove etc_localtime,
               FsAction.symlink full_timezone localtime etc]
  else
    Except.error ⟨"Timezone \"" ++ timezone ++ "\" not found when trying to set timezone."⟩

/-! ## Operation words over a run context (for the shadowing safety claim) -/

/-- The state-mutating operations of `RunContext` that a build performs after
a command has been set; used to express that no later operation un-shadows
the `file_name` method. -/
inductive COp where
  | setCmd (commandName fileName : String) (lineNumber lineOffset : Int)
  | resetCmd
  | setSubst (key value : String) (localTier : Bool)
  | addHook (hook : String) (e : HookEntry)
  | runHooksOp (hook : String)
  | installBase (base : RunContext)

/-- Apply one operation (a failed `set_command` assertion aborts). -/
def applyOp (rc : RunContext) : COp → Except String RunContext
  | .setCmd n f l o => rc.set_command n f l o
  | .resetCmd => Except.ok rc.reset_command
  | .setSubst k v lt => Except.ok (rc.set_substitution k v lt)
  | .addHook h e => Except.ok (rc.add_hook h e)
  | .runHooksOp h => Except.ok (rc.run_hooks h).1
  | .installBase b => Except.ok (rc.install_base_context b)

/-- Apply a sequence of operations, stopping at the first failure. -/
def applyOps (rc : RunContext) : List COp → Except String RunContext
  | [] => Except.ok rc
  | op :: rest =>
      match applyOp rc op with
      | Except.ok rc1 => applyOps rc1 rest
      | Except.error e => Except.error e

/-! ## Behaviour of `run_hooks` -/

/-- A hook name that already ran is skipped wholesale. -/
theorem run_hooks_skip (rc : RunContext) (hook : String)
    (h : hook ∈ rc.data.hooks_that_already_ran) :
    rc.run_hooks hook = (rc, []) := by
  unfold RunContext.run_hooks
  simp [h]

/-- Full characterization of the first effective `run_hooks` call: the hooks
dict gains the key via `setdefault`, the hook name is recorded as already-ran
only when the entry list is non-empty (the early `return` for an empty list
skips the recording), and the emitted events are the hook's trace. -/
theorem run_hooks_eq (rc : RunContext) (hook : String)
    (hna : hook ∉ rc.data.hooks_that_already_ran) :
    rc.run_hooks hook =
      (.mk { rc.data with
              hooks := (alistSetdefault rc.data.hooks hook []).2
              hooks_that_already_ran :=
                if (alistGet rc.data.hooks hook).getD [] = [] then
                  rc.data.hooks_that_already_ran
                else
                  rc.data.hooks_that_already_ran ++ [hook] } rc.base_context,
       rc.hookTrace hook) := by
  unfold RunContext.run_hooks
  rw [if_neg hna]
  by_cases hnil : (alistGet rc.data.hooks hook).getD [] = []
  · have hE : (alistSetdefault rc.data.hooks hook []).1.isEmpty = true := by
      rw [alistSetdefault_fst, hnil]; rfl
    rw [if_pos hE, if_pos hnil]
    simp [RunContext.hookTrace, hnil]
  · have hE : ¬ (alistSetdefault rc.data.hooks hook []).1.isEmpty = true := by
      rw [alistSetdefault_fst]; simpa using hnil
    rw [if_neg hE, if_neg hnil]
    simp [RunContext.hookTrace, RunContext.ctxSystemsDirectory, RunContext.data,
          RunContext.base_context, alistSetdefault_fst]

/-- `run_hooks` only touches the hooks dict and the already-ran set: context
handle, system, timestamp, the `file_name` instance attribute and the base
context are untouched. -/
theorem run_hooks_preserves (rc : RunContext) (hook : String) :
    ((rc.run_hooks hook).1).data.ctx = rc.data.ctx ∧
    ((rc.run_hooks hook).1).data.system = rc.data.system ∧
    ((rc.run_hooks hook).1).data.timestamp = rc.data.timestamp ∧
    ((rc.run_hooks hook).1).data.file_name_attr = rc.data.file_name_attr ∧
    ((rc.run_hooks hook).1).base_context = rc.base_context := by
  by_cases h : hook ∈ rc.data.hooks_that_already_ran
  · rw [run_hooks_skip rc hook h]
    exact ⟨rfl, rfl, rfl, rfl, rfl⟩
  · rw [run_hooks_eq rc hook h]
    refine ⟨?_, ?_, ?_, ?_, ?_⟩ <;>
      simp [RunContext.data, RunContext.base_context]

/-- `run_hooks hook` leaves the entry lists of all other hook names in
place. -/
theorem run_hooks_other_hooks (rc : RunContext) (hook other : String)
    (h : other ≠ hook) :
    alistGet ((rc.run_hooks hook).1).data.hooks other = alistGet rc.data.hooks other := by
  by_cases hm : hook ∈ rc.data.hooks_that_already_ran
  · rw [run_hooks_skip rc hook hm]
  · rw [run_hooks_eq rc hook hm]
    simpa [RunContext.data] using alistGet_setdefault_ne rc.data.hooks hook other [] h

/-- Membership of other hook names in the already-ran set is unchanged by
`run_hooks hook`. -/
theorem run_hooks_other_already_ran (rc : RunContext) (hook other : String)
    (h : other ≠ hook) :
    (other ∈ ((rc.run_hooks hook).1).data.hooks_that_already_ran) ↔
      (other ∈ rc.data.hooks_that_already_ran) := by
  by_cases hm : hook ∈ rc.data.hooks_that_already_ran
  · rw [run_hooks_skip rc hook hm]
  · rw [run_hooks_eq rc hook hm]
    by_cases hnil : (alistGet rc.data.hooks hook).getD [] = []
    · rw [if_pos hnil]
      simp [RunContext.data]
    · rw [if_neg hnil]
      simp [RunContext.data, h]

/-- `_setup_substitutions` only rewrites the two substitution tiers; all
other attributes are untouched. -/
theorem setup_substitutions_preserves (rc : RunContext) :
    rc.setup_substitutions.data.ctx = rc.data.ctx ∧
    rc.setup_substitutions.data.system = rc.data.system ∧
    rc.setup_substitutions.data.timestamp = rc.data.timestamp ∧
    rc.setup_substitutions.data.hooks = rc.data.hooks ∧
    rc.setup_substitutions.data.flags = rc.data.flags ∧
    rc.setup_substitutions.data.hooks_that_already_ran = rc.data.hooks_that_already_ran ∧
    rc.setup_substitutions.data.file_name_attr = rc.data.file_name_attr ∧
    rc.setup_substitutions.base_context = rc.base_context := by
  refine ⟨?_, ?_, ?_, ?_, ?_, ?_, ?_, ?_⟩ <;>
    simp [RunContext.setup_substitutions, RunContext.set_substitution,
          RunContext.data, RunContext.base_context]

/-- The exact substitution tables produced by `_setup_substitutions`:
`TIMESTAMP` into the global tier, then `SYSTEM`, `ROOT`, `BASE_SYSTEM` into
the local tier, where `ROOT` is resolved through the live context handle. -/
theorem setup_substitutions_tables (rc : RunContext) :
    rc.setup_substitutions.data.substitutions =
      alistInsert rc.data.substitutions "TIMESTAMP" rc.data.timestamp ∧
    rc.setup_substitutions.data.local_substitutions =
      alistInsert
        (alistInsert
          (alistInsert rc.data.local_substitutions "SYSTEM" rc.data.system)
          "ROOT" (rc.fs_directory none))
        "BASE_SYSTEM" "" := by
  refine ⟨?_, ?_⟩ <;>
    simp [RunContext.setup_substitutions, RunContext.set_substitution,
          RunContext.data, RunContext.base_context, RunContext.fs_directory]

/-- Installing a base context does not touch the `file_name` instance
attribute. -/
theorem install_base_preserves_attr (rc base : RunContext) :
    (rc.install_base_context base).data.file_name_attr = rc.data.file_name_attr := by
  unfold RunContext.install_base_context
  exact ((setup_substitutions_preserves _).2.2.2.2.2.2.1).trans (by simp [RunContext.data])

/-- No single context operation clears the `file_name` instance attribute
once it is set. -/
theorem applyOp_preserves_shadow (rc rc1 : RunContext) (op : COp)
    (h : applyOp rc op = Except.ok rc1)
    (hne : rc.data.file_name_attr ≠ none) :
    rc1.data.file_name_attr ≠ none := by
  cases op with
  | setCmd n f l o =>
      simp only [applyOp] at h
      unfold RunContext.set_command at h
      cases hc : rc.data.command with
      | some c => rw [hc] at h; cases h
      | none =>
          rw [hc] at h
          injection h with h
          subst h
          simp [RunContext.data]
  | resetCmd =>
      simp only [applyOp] at h
      injection h with h
      subst h
      simpa [RunContext.reset_command, RunContext.data] using hne
  | setSubst k v lt =>
      simp only [applyOp] at h
      injection h with h
      subst h
      cases lt <;> simpa [RunContext.set_substitution, RunContext.data] using hne
  | addHook hk e =>
      simp only [applyOp] at h
      injection h with h
      subst h
      simpa [RunContext.add_hook, RunContext.data] using hne
  | runHooksOp hk =>
      simp only [applyOp] at h
      injection h with h
      subst h
      rw [(run_hooks_preserves rc hk).2.2.2.1]
      exact hne
  | installBase b =>
      simp only [applyOp] at h
      injection h with h
      subst h
      rw [install_base_preserves_attr]
      exact hne

/-- Once the `file_name` instance attribute is set, it survives any sequence
of context operations. -/
theorem applyOps_preserves_shadow (ops : List COp) :
    ∀ rcA rcB : RunContext, applyOps rcA ops = Except.ok rcB →
      rcA.data.file_name_attr ≠ none → rcB.data.file_name_attr ≠ none := by
  induction ops with
  | nil =>
      intro rcA rcB h hne
      unfold applyOps at h
      injection h with h
      subst h
      exact hne
  | cons op rest ih =>
      intro rcA rcB h hne
      unfold applyOps at h
      cases hop : applyOp rcA op with
      | error e => rw [hop] at h; cases h
      | ok rc1 =>
          rw [hop] at h
          exact ih rc1 rcB h (applyOp_preserves_shadow rcA rc1 op hop hne)

/-! ## Concrete instances used by witnesses and counterexamples -/

/-- A concrete global context whose active system is `websrv`. -/
def demoCtx : Ctx :=
  { currentSystem := "websrv"
    fsRoot := fun s => "/work/fs/" ++ s
    systemsDirectory := "/work/systems"
    checkoutDirectoryOf := fun s => "/work/checkout/" ++ s
    systemDirectoryOf := fun s => "/work/system/" ++ s
    workRepositoryDirectory := "/work/repo"
    ostreeBinary := "/usr/bin/ostree" }

/-- A concrete global context whose active system is `derived`. -/
def demoCtxDerived : Ctx := { demoCtx with currentSystem := "derived" }

/-- A concrete global context whose active system is `base`. -/
def demoCtxBase : Ctx := { demoCtx with currentSystem := "base" }

/-- A concrete bound hook entry for the `sed` command. -/
def demoEntry : HookEntry :=
  { file := "base.def", line := 3, offset := 1, command := "sed"
    args := ["s/a/b/", "/etc/f"], kwargs := [], message := "fix config" }

/-- A second concrete bound hook entry. -/
def demoEntry2 : HookEntry :=
  { file := "base.def", line := 7, offset := 1, command := "sed"
    args := ["s/x/y/", "/etc/g"], kwargs := [], message := "second entry" }

/-- A freshly initialized run context for system `websrv`. -/
def rcFresh : RunContext := RunContext.init demoCtx "websrv" "20210203-040506"

/-- A run context with two entries registered under the `testing` hook. -/
def rcTesting : RunContext :=
  (rcFresh.add_hook "testing" demoEntry).add_hook "testing" demoEntry2

/-- A run context with one `_teardown` and one `testing` hook entry. -/
def rcTeardown : RunContext :=
  (rcFresh.add_hook "_teardown" demoEntry).add_hook "testing" demoEntry2

/-- A loaded base context for system `base` with timestamp `T1` and one
`_teardown` hook entry. -/
def demoBase : RunContext :=
  (RunContext.init demoCtxBase "base" "T1").add_hook "_teardown" demoEntry

/-- A freshly initialized run context for system `derived`. -/
def demoDerived : RunContext := RunContext.init demoCtxDerived "derived" "T2"

/-- The context state after `set_command` on `rcFresh` (the value
`rcFresh.set_command "sed" "web.def" 4 2` returns). -/
def rcSet : RunContext :=
  .mk { rcFresh.data with
         command := some "sed"
         file_name_attr := some "web.def"
         line_number_attr := some 4
         line_offset_attr := some 2 } rcFresh.base_context

/-- A generator system context on which no zoneinfo path exists. -/
def demoSC : SystemContext := ⟨fun _ _ => false⟩

/-- A concrete command registry holding singletons for `sed` and
`_teardown`. -/
def demoRegistry : List Command :=
  [⟨0, "sed", "sed <PATTERN> <FILE>", "Run sed on a file."⟩,
   ⟨1, "_teardown", "_teardown", "Implicitly run after any other command."⟩]

/-- The registry singleton for `sed`. -/
def demoSed : Command := ⟨0, "sed", "sed <PATTERN> <FILE>", "Run sed on a file."⟩

/-! ## Claim theorems -/

/-- Claim C7: the no-arguments validation helper of the `Command` base class
is *intended* to raise a parse error on any argument, but the source
constructs the `ParseError` without raising it: called with a positional
argument it builds the error object yet still returns normally with
dependency `None`.  This theorem evaluates the embedded code at the failing
input, exhibiting the constructed-but-discarded error and the normal
return. -/
theorem validate_no_arguments_constructs_but_returns :
    validate_no_arguments "_teardown" ["extra"] [] =
      (["_teardown does not take arguments."], none) ∧
    validate_no_arguments "_teardown" [] [("opt", "v")] =
      (["_teardown does not take keyword arguments."], none) ∧
    validate_no_arguments "_teardown" [] [] = ([], none) := by
  exact ⟨rfl, rfl, rfl⟩

/-- Claim C8: `set_timezone` with a timezone whose zoneinfo path does not
exist raises a `GenerateError` whose message names the offending timezone,
and no filesystem action (`remove`/`symlink`) is produced. -/
theorem set_timezone_missing_zone_error (sc : SystemContext) (tz : String)
    (h : sc.fsExists "/etc" ("../usr/share/zoneinfo/" ++ tz) = false) :
    setTimezoneCall sc tz =
      Except.error
        ⟨"Timezone \"" ++ tz ++ "\" not found when trying to set timezone."⟩ := by
  unfold setTimezoneCall
  simp [h]

/-- Witness for C8 at the concrete input `Invalid/Zone` on a system context
without any zoneinfo entries. -/
theorem set_timezone_missing_zone_error_witness :
    demoSC.fsExists "/etc" ("../usr/share/zoneinfo/" ++ "Invalid/Zone") = false ∧
    setTimezoneCall demoSC "Invalid/Zone" =
      Except.error
        ⟨"Timezone \"" ++ "Invalid/Zone" ++ "\" not found when trying to set timezone."⟩ :=
  ⟨rfl, set_timezone_missing_zone_error demoSC "Invalid/Zone" rfl⟩

/-- Claim C5: every `Command` instance in the pickled graph is written as a
tagged `("Command", name)` reference token rather than by value;
deserializing such a token resolves it through the global registry to the
registry's live singleton for that name (identity-equal to it, regardless of
which instance was serialized); and a token with any other tag fails with
the unpickling corruption error. -/
theorem command_pickle_roundtrip (registry : List Command) (c csing : Command)
    (tag nm : String)
    (hsing : Parser.command registry c.name = some csing)
    (htag : tag ≠ "Command") :
    serializeObj (PickleObj.commandObj c) = SerializedObj.ref ("Command", c.name) ∧
    persistent_load registry ("Command", c.name) = Except.ok csing ∧
    persistent_load registry (tag, nm) = Except.error "Unsupported persistent object." := by
  refine ⟨rfl, ?_, ?_⟩
  · unfold persistent_load
    simp [hsing]
  · unfold persistent_load
    simp [htag]

/-- Witness for C5: the `sed` singleton in a concrete registry round-trips to
itself, and a `"Hook"`-tagged token is rejected. -/
theorem command_pickle_roundtrip_witness :
    Parser.command demoRegistry demoSed.name = some demoSed ∧
    "Hook" ≠ "Command" ∧
    (serializeObj (PickleObj.commandObj demoSed) =
        SerializedObj.ref ("Command", demoSed.name) ∧
     persistent_load demoRegistry ("Command", demoSed.name) = Except.ok demoSed ∧
     persistent_load demoRegistry ("Hook", "x") =
        Except.error "Unsupported persistent object.") :=
  ⟨by decide, by decide,
   command_pickle_roundtrip demoRegistry demoSed demoSed "Hook" "x" (by decide) (by decide)⟩

/-- Claim C9, counterexample: the `sed` command does *not* run with the
staged filesystem root as chroot — `SedCommand.__call__` passes
`outside=True`, so the assembled invocation has no chroot at all (it instead
maps the file argument to its outside path).  At a concrete context whose
staged root is `/work/fs/websrv`, the chroot of the invocation is `none`,
not `some "/work/fs/websrv"`. -/
theorem sed_chroot_counterexample :
    (sedCall rcFresh "s/a/b/" "/etc/hosts").chroot = none ∧
    (sedCall rcFresh "s/a/b/" "/etc/hosts").chroot ≠
      some (rcFresh.fs_directory none) := by
  constructor
  · rfl
  · intro h
    cases (rfl : (sedCall rcFresh "s/a/b/" "/etc/hosts").chroot = none) ▸ h

/-- Claim C9, amended: executing `sed` with a pattern and a file invokes the
external sed process as an *outside* (host-filesystem, no-chroot) invocation
whose file argument is the inside path mapped to its outside location under
the staged root. -/
theorem sed_outside_on_mapped_path (rc : RunContext) (pattern fileArg : String) :
    sedCall rc pattern fileArg =
      { argv := ["/usr/bin/sed", "-i", "-e", pattern, fileFileName rc fileArg]
        chroot := none
        work_directory := none } := rfl

/-- After `_setup_substitutions` the `BASE_SYSTEM` substitution is always the
empty string — the helper re-sets it to `''` unconditionally, whether or not
a base was installed. -/
theorem setup_substitutions_base_system (rc : RunContext) :
    rc.setup_substitutions.substitution "BASE_SYSTEM" = some "" := by
  have h := (setup_substitutions_tables rc).2
  unfold RunContext.substitution
  rw [h, alistGet_insert_self]

/-- Claim C6, counterexample: after installing a loaded base context (system
`base`, with a hook and its own substitutions) into a fresh context for
system `derived`, the `BASE_SYSTEM` substitution is still the *empty* string
— `_install_base_context` re-runs `_setup_substitutions`, which
unconditionally resets `BASE_SYSTEM` to `''`, and nothing in the sources
ever assigns it a non-empty value. -/
theorem base_system_empty_after_install_counterexample :
    (demoDerived.install_base_context demoBase).substitution "BASE_SYSTEM" =
      some "" := by
  unfold RunContext.install_base_context
  exact setup_substitutions_base_system _

/-- Claim C6, amended: the `BASE_SYSTEM` substitution is the empty string on
a fresh context and *remains* the empty string after a base context is
installed (the re-applied local substitutions reset it to `''`). -/
theorem base_system_always_empty (ctx : Ctx) (sys ts : String)
    (cur base : RunContext) :
    (RunContext.init ctx sys ts).substitution "BASE_SYSTEM" = some "" ∧
    (cur.install_base_context base).substitution "BASE_SYSTEM" = some "" := by
  constructor
  · unfold RunContext.init
    exact setup_substitutions_base_system _
  · unfold RunContext.install_base_context
    exact setup_substitutions_base_system _

/-- Claim C4, counterexample: running a hook name with no registered entries
executes nothing but is *not* marked as already run — the early `return` for
an empty entry list happens before the name is appended to
`hooks_that_already_ran`.  On a fresh context, running the unregistered hook
`"foo"` leaves the already-ran set empty. -/
theorem empty_hook_marking_counterexample :
    (rcFresh.run_hooks "foo").1.data.hooks_that_already_ran = [] ∧
    (rcFresh.run_hooks "foo").2 = [] :=
  ⟨rfl, rfl⟩

/-- Claim C4, amended: running a hook name with no registered entries
executes no commands and leaves the already-ran set *unchanged* (the hook
name is not recorded, unlike a non-empty hook). -/
theorem empty_hook_noop_unmarked (rc : RunContext) (hook : String)
    (h : (alistGet rc.data.hooks hook).getD [] = []) :
    (rc.run_hooks hook).2 = [] ∧
    (rc.run_hooks hook).1.data.hooks_that_already_ran =
      rc.data.hooks_that_already_ran := by
  by_cases hm : hook ∈ rc.data.hooks_that_already_ran
  · rw [run_hooks_skip rc hook hm]
    exact ⟨rfl, rfl⟩
  · rw [run_hooks_eq rc hook hm]
    refine ⟨?_, ?_⟩
    · simp [RunContext.hookTrace, h]
    · rw [if_pos h]
      simp [RunContext.data]

/-- Witness for the amended C4 at the unregistered hook name `post` on a
fresh context. -/
theorem empty_hook_noop_unmarked_witness :
    (alistGet rcFresh.data.hooks "post").getD [] = [] ∧
    ((rcFresh.run_hooks "post").2 = [] ∧
     (rcFresh.run_hooks "post").1.data.hooks_that_already_ran =
       rcFresh.data.hooks_that_already_ran) :=
  ⟨rfl, empty_hook_noop_unmarked rcFresh "post" rfl⟩

/-- Claim C3: on a context where the hook has not yet run, the first
`run_hooks` call executes exactly the registered entries, in registration
order (the hook's trace), and the second call on the resulting context
executes nothing. -/
theorem run_hooks_twice_runs_once (rc : RunContext) (hook : String)
    (hna : hook ∉ rc.data.hooks_that_already_ran) :
    (rc.run_hooks hook).2 = rc.hookTrace hook ∧
    ((rc.run_hooks hook).1.run_hooks hook).2 = [] := by
  refine ⟨by rw [run_hooks_eq rc hook hna], ?_⟩
  rw [run_hooks_eq rc hook hna]
  by_cases hnil : (alistGet rc.data.hooks hook).getD [] = []
  · rw [if_pos hnil]
    have hna' : hook ∉
        (RunContext.mk { rc.data with
            hooks := (alistSetdefault rc.data.hooks hook []).2 }
          rc.base_context).data.hooks_that_already_ran := by
      simpa [RunContext.data] using hna
    rw [run_hooks_eq _ hook hna']
    simp [RunContext.hookTrace, RunContext.data, alistGet_setdefault_self, hnil]
    change ∀ a : HookEntry, a ∉ (alistGet rc.data.hooks hook).getD []
    simp [hnil]
  · rw [if_neg hnil]
    have hm : hook ∈
        (RunContext.mk { rc.data with
            hooks := (alistSetdefault rc.data.hooks hook []).2
            hooks_that_already_ran := rc.data.hooks_that_already_ran ++ [hook] }
          rc.base_context).data.hooks_that_already_ran := by
      simp [RunContext.data]
    rw [run_hooks_skip _ hook hm]

/-- Witness for C3: two entries registered under `testing`; the first call
emits both entries in order, the second call emits nothing. -/
theorem run_hooks_twice_runs_once_witness :
    "testing" ∉ rcTesting.data.hooks_that_already_ran ∧
    ((rcTesting.run_hooks "testing").2 = rcTesting.hookTrace "testing" ∧
     ((rcTesting.run_hooks "testing").1.run_hooks "testing").2 = []) :=
  ⟨by decide, run_hooks_twice_runs_once rcTesting "testing" (by decide)⟩

/-- Claim C2: installing a loaded base context overwrites the current
context's timestamp, hooks, substitutions and flags with the base's values
and wires the base in, then re-applies the context-critical local
substitutions: afterwards `TIMESTAMP` resolves to the base's timestamp, the
hooks table is the base's table, `SYSTEM` names the derived system, and
`ROOT` resolves to the derived system's own filesystem root — not the
base's. -/
theorem install_base_inherits (cur base : RunContext) (c : Ctx)
    (hctx : cur.data.ctx = some c)
    (hsys : c.currentSystem = cur.data.system)
    (hts : alistGet cur.data.local_substitutions "TIMESTAMP" = none)
    (hrootne : base.substitution "ROOT" ≠ some (c.fsRoot cur.data.system)) :
    (cur.install_base_context base).base_context = some base ∧
    (cur.install_base_context base).data.timestamp = base.data.timestamp ∧
    (cur.install_base_context base).data.hooks = base.data.hooks ∧
    (cur.install_base_context base).data.flags = base.data.flags ∧
    (cur.install_base_context base).data.substitutions =
      alistInsert base.data.substitutions "TIMESTAMP" base.data.timestamp ∧
    (cur.install_base_context base).substitution "TIMESTAMP" =
      some base.data.timestamp ∧
    (cur.install_base_context base).substitution "SYSTEM" = some cur.data.system ∧
    (cur.install_base_context base).substitution "ROOT" =
      some (c.fsRoot cur.data.system) ∧
    (cur.install_base_context base).substitution "ROOT" ≠
      base.substitution "ROOT" := by
  have hS : (cur.install_base_context base).data.substitutions =
      alistInsert base.data.substitutions "TIMESTAMP" base.data.timestamp := by
    unfold RunContext.install_base_context
    rw [(setup_substitutions_tables _).1]
    simp [RunContext.data]
  have hfs : (RunContext.mk { cur.data with
        timestamp := base.data.timestamp
        hooks := base.data.hooks
        substitutions := base.data.substitutions
        flags := base.data.flags } (some base)).fs_directory none =
      c.fsRoot cur.data.system := by
    show (match cur.data.ctx with
          | some cc => cc.fs_directory none
          | none => "") = c.fsRoot cur.data.system
    rw [hctx]
    show c.fsRoot c.currentSystem = c.fsRoot cur.data.system
    rw [hsys]
  have hL : (cur.install_base_context base).data.local_substitutions =
      alistInsert
        (alistInsert
          (alistInsert cur.data.local_substitutions "SYSTEM" cur.data.system)
          "ROOT" (c.fsRoot cur.data.system))
        "BASE_SYSTEM" "" := by
    unfold RunContext.install_base_context
    rw [(setup_substitutions_tables _).2, hfs]
    simp [RunContext.data]
  have hRoot : (cur.install_base_context base).substitution "ROOT" =
      some (c.fsRoot cur.data.system) := by
    unfold RunContext.substitution
    rw [hL, alistGet_insert_ne _ "BASE_SYSTEM" "ROOT" _ (by decide),
        alistGet_insert_self]
  have hSys : (cur.install_base_context base).substitution "SYSTEM" =
      some cur.data.system := by
    unfold RunContext.substitution
    rw [hL, alistGet_insert_ne _ "BASE_SYSTEM" "SYSTEM" _ (by decide),
        alistGet_insert_ne _ "ROOT" "SYSTEM" _ (by decide),
        alistGet_insert_self]
  have hTs : (cur.install_base_context base).substitution "TIMESTAMP" =
      some base.data.timestamp := by
    unfold RunContext.substitution
    rw [hL, alistGet_insert_ne _ "BASE_SYSTEM" "TIMESTAMP" _ (by decide),
        alistGet_insert_ne _ "ROOT" "TIMESTAMP" _ (by decide),
        alistGet_insert_ne _ "SYSTEM" "TIMESTAMP" _ (by decide),
        hts, hS, alistGet_insert_self]
  have hB : (cur.install_base_context base).base_context = some base := by
    unfold RunContext.install_base_context
    rw [(setup_substitutions_preserves _).2.2.2.2.2.2.2]
    simp [RunContext.base_context]
  have hT : (cur.install_base_context base).data.timestamp = base.data.timestamp := by
    unfold RunContext.install_base_context
    rw [(setup_substitutions_preserves _).2.2.1]
    simp [RunContext.data]
  have hH : (cur.install_base_context base).data.hooks = base.data.hooks := by
    unfold RunContext.install_base_context
    rw [(setup_substitutions_preserves _).2.2.2.1]
    simp [RunContext.data]
  have hF : (cur.install_base_context base).data.flags = base.data.flags := by
    unfold RunContext.install_base_context
    rw [(setup_substitutions_preserves _).2.2.2.2.1]
    simp [RunContext.data]
  refine ⟨hB, hT, hH, hF, hS, hTs, hSys, hRoot, ?_⟩
  rw [hRoot]
  intro h
  exact hrootne h.symm

/-- Witness for C2: fresh context for system `derived`, loaded base for
system `base` with one `_teardown` hook entry and timestamp `T1`. -/
theorem install_base_inherits_witness :
    demoDerived.data.ctx = some demoCtxDerived ∧
    demoCtxDerived.currentSystem = demoDerived.data.system ∧
    alistGet demoDerived.data.local_substitutions "TIMESTAMP" = none ∧
    demoBase.substitution "ROOT" ≠
      some (demoCtxDerived.fsRoot demoDerived.data.system) ∧
    ((demoDerived.install_base_context demoBase).base_context = some demoBase ∧
     (demoDerived.install_base_context demoBase).data.timestamp =
       demoBase.data.timestamp ∧
     (demoDerived.install_base_context demoBase).data.hooks =
       demoBase.data.hooks ∧
     (demoDerived.install_base_context demoBase).data.flags =
       demoBase.data.flags ∧
     (demoDerived.install_base_context demoBase).data.substitutions =
       alistInsert demoBase.data.substitutions "TIMESTAMP"
         demoBase.data.timestamp ∧
     (demoDerived.install_base_context demoBase).substitution "TIMESTAMP" =
       some demoBase.data.timestamp ∧
     (demoDerived.install_base_context demoBase).substitution "SYSTEM" =
       some demoDerived.data.system ∧
     (demoDerived.install_base_context demoBase).substitution "ROOT" =
       some (demoCtxDerived.fsRoot demoDerived.data.system) ∧
     (demoDerived.install_base_context demoBase).substitution "ROOT" ≠
       demoBase.substitution "ROOT") :=
  ⟨rfl, rfl, by decide, by decide,
   install_base_inherits demoDerived demoBase demoCtxDerived rfl rfl
     (by decide) (by decide)⟩

/-- Claim C10: once `set_command` has been called on a run context, the
string it assigns to the `file_name` instance attribute permanently shadows
the `file_name` method — after any further sequence of context operations,
calling `file_name(path)` fails with a `TypeError`; on a fresh context
(before the first `set_command`) the call still performs the
inside-to-outside path mapping. -/
theorem set_command_permanently_shadows (rc rc1 rc2 : RunContext)
    (n f : String) (l o : Int) (ops : List COp) (p : String)
    (hfresh : rc.data.file_name_attr = none)
    (hset : rc.set_command n f l o = Except.ok rc1)
    (happ : applyOps rc1 ops = Except.ok rc2) :
    rc2.call_file_name p = Except.error "TypeError: str object is not callable" ∧
    rc.call_file_name p =
      Except.ok (if p.startsWith "/" then fileFileName rc p else p) := by
  constructor
  · have hone : rc1.data.file_name_attr ≠ none := by
      unfold RunContext.set_command at hset
      cases hc : rc.data.command with
      | some cc => rw [hc] at hset; cases hset
      | none =>
          rw [hc] at hset
          injection hset with hset
          subst hset
          simp [RunContext.data]
    have htwo := applyOps_preserves_shadow ops rc1 rc2 happ hone
    unfold RunContext.call_file_name
    cases ha : rc2.data.file_name_attr with
    | none => exact absurd ha htwo
    | some s => rfl
  · unfold RunContext.call_file_name
    rw [hfresh]

/-- Witness for C10: `set_command` on a fresh context, followed by a
`reset_command`, still leaves `file_name(path)` failing, while the fresh
context mapped the path. -/
theorem set_command_permanently_shadows_witness :
    rcFresh.data.file_name_attr = none ∧
    rcFresh.set_command "sed" "web.def" 4 2 = Except.ok rcSet ∧
    applyOps rcSet [COp.resetCmd] = Except.ok rcSet.reset_command ∧
    (rcSet.reset_command.call_file_name "/etc/motd" =
       Except.error "TypeError: str object is not callable" ∧
     rcFresh.call_file_name "/etc/motd" =
       Except.ok (if "/etc/motd".startsWith "/" then fileFileName rcFresh "/etc/motd"
                  else "/etc/motd")) :=
  ⟨rfl, rfl, rfl,
   set_command_permanently_shadows rcFresh rcSet rcSet.reset_command "sed" "web.def"
     4 2 [COp.resetCmd] "/etc/motd" rfl rfl rfl⟩

/-- Claim C1: the teardown command executes its steps in the fixed order —
`_teardown` hook entries, then `testing` hook entries, then the pickle of
the run context, then (only if the checkout directory exists) the unmount of
the staged system directory, then the ostree commit whose working directory
is the checkout directory when it exists and otherwise the staged system
directory, with branch = system name and subject = build timestamp. -/
theorem teardown_fixed_sequence (isdir : String → Bool) (rc : RunContext)
    (h1 : "_teardown" ∉ rc.data.hooks_that_already_ran)
    (h2 : "testing" ∉ rc.data.hooks_that_already_ran) :
    (teardownCall isdir rc).2 =
      rc.hookTrace "_teardown" ++ rc.hookTrace "testing"
      ++ [Event.pickleSave (teardownCall isdir rc).1.savedOf]
      ++ (if isdir rc.checkout_directory then
            [Event.processRun
              { argv := ["/usr/bin/umount", rc.system_directory]
                chroot := some (rc.fs_directory none)
                work_directory := none }]
          else [])
      ++ [Event.processRun
            { argv := [rc.ctxOstreeBinary,
                       "--repo=" ++ rc.ctxWorkRepositoryDirectory,
                       "commit",
                       "--branch", rc.data.system,
                       "--subject", rc.data.timestamp,
                       "--add-metadata-string=\"timestamp=" ++ rc.data.timestamp ++ "\""]
              chroot := none
              work_directory :=
                some (if isdir rc.checkout_directory then rc.checkout_directory
                      else rc.system_directory) }] := by
  have hna2 : "testing" ∉ ((rc.run_hooks "_teardown").1).data.hooks_that_already_ran := by
    rw [run_hooks_other_already_ran rc "_teardown" "testing" (by decide)]
    exact h2
  have p1 := run_hooks_preserves rc "_teardown"
  have p2 := run_hooks_preserves (rc.run_hooks "_teardown").1 "testing"
  have hcd : ((rc.run_hooks "_teardown").1).ctxSystemsDirectory =
      rc.ctxSystemsDirectory := by
    unfold RunContext.ctxSystemsDirectory
    rw [p1.1]
  have hTrace2 : ((rc.run_hooks "_teardown").1).hookTrace "testing" =
      rc.hookTrace "testing" := by
    unfold RunContext.hookTrace
    rw [run_hooks_other_hooks rc "_teardown" "testing" (by decide)]
    simp only [hcd]
  have hco : (((rc.run_hooks "_teardown").1.run_hooks "testing").1).checkout_directory =
      rc.checkout_directory := by
    unfold RunContext.checkout_directory
    simp only [p2.1, p1.1, p2.2.1, p1.2.1]
  have hsd : (((rc.run_hooks "_teardown").1.run_hooks "testing").1).system_directory =
      rc.system_directory := by
    unfold RunContext.system_directory
    simp only [p2.1, p1.1, p2.2.1, p1.2.1]
  have hfsd : (((rc.run_hooks "_teardown").1.run_hooks "testing").1).fs_directory none =
      rc.fs_directory none := by
    unfold RunContext.fs_directory
    simp only [p2.1, p1.1]
  have host : (((rc.run_hooks "_teardown").1.run_hooks "testing").1).ctxOstreeBinary =
      rc.ctxOstreeBinary := by
    unfold RunContext.ctxOstreeBinary
    simp only [p2.1, p1.1]
  have hrepo : (((rc.run_hooks "_teardown").1.run_hooks "testing").1).ctxWorkRepositoryDirectory =
      rc.ctxWorkRepositoryDirectory := by
    unfold RunContext.ctxWorkRepositoryDirectory
    simp only [p2.1, p1.1]
  have htsB : (((rc.run_hooks "_teardown").1.run_hooks "testing").1).data.timestamp =
      rc.data.timestamp := p2.2.2.1.trans p1.2.2.1
  have hsysB : (((rc.run_hooks "_teardown").1.run_hooks "testing").1).data.system =
      rc.data.system := p2.2.1.trans p1.2.1
  have e1 : (rc.run_hooks "_teardown").2 = rc.hookTrace "_teardown" := by
    rw [run_hooks_eq rc "_teardown" h1]
  have e2 : ((rc.run_hooks "_teardown").1.run_hooks "testing").2 =
      rc.hookTrace "testing" := by
    rw [run_hooks_eq _ "testing" hna2, hTrace2]
  have eunm : teardownUnmount isdir (((rc.run_hooks "_teardown").1.run_hooks "testing").1) =
      (if isdir rc.checkout_directory then
        [Event.processRun
          { argv := ["/usr/bin/umount", rc.system_directory]
            chroot := some (rc.fs_directory none)
            work_directory := none }]
      else []) := by
    unfold teardownUnmount RunContext.runCall
    rw [hco, hsd, hfsd]
    simp
  have estore : teardownStore isdir (((rc.run_hooks "_teardown").1.run_hooks "testing").1) =
      [Event.processRun
        { argv := [rc.ctxOstreeBinary,
                   "--repo=" ++ rc.ctxWorkRepositoryDirectory,
                   "commit",
                   "--branch", rc.data.system,
                   "--subject", rc.data.timestamp,
                   "--add-metadata-string=\"timestamp=" ++ rc.data.timestamp ++ "\""]
          chroot := none
          work_directory :=
            some (if isdir rc.checkout_directory then rc.checkout_directory
                  else rc.system_directory) }] := by
    unfold teardownStore RunContext.runCall
    rw [hco, hsd, host, hrepo, htsB, hsysB]
    simp
  have hfst : (teardownCall isdir rc).1 =
      ((rc.run_hooks "_teardown").1.run_hooks "testing").1 := rfl
  have hsnd : (teardownCall isdir rc).2 =
      (rc.run_hooks "_teardown").2
      ++ ((rc.run_hooks "_teardown").1.run_hooks "testing").2
      ++ [Event.pickleSave
            ((((rc.run_hooks "_teardown").1.run_hooks "testing").1).savedOf)]
      ++ teardownUnmount isdir (((rc.run_hooks "_teardown").1.run_hooks "testing").1)
      ++ teardownStore isdir (((rc.run_hooks "_teardown").1.run_hooks "testing").1) := rfl
  rw [hsnd, hfst, e1, e2, eunm, estore]

/-- Witness for C1: a context with one `_teardown` and one `testing` entry
and a filesystem on which the checkout directory exists. -/
theorem teardown_fixed_sequence_witness :
    "_teardown" ∉ rcTeardown.data.hooks_that_already_ran ∧
    "testing" ∉ rcTeardown.data.hooks_that_already_ran ∧
    (teardownCall (fun _ => true) rcTeardown).2 =
      rcTeardown.hookTrace "_teardown" ++ rcTeardown.hookTrace "testing"
      ++ [Event.pickleSave (teardownCall (fun _ => true) rcTeardown).1.savedOf]
      ++ (if (fun _ => true) rcTeardown.checkout_directory then
            [Event.processRun
              { argv := ["/usr/bin/umount", rcTeardown.system_directory]
                chroot := some (rcTeardown.fs_directory none)
                work_directory := none }]
          else [])
      ++ [Event.processRun
            { argv := [rcTeardown.ctxOstreeBinary,
                       "--repo=" ++ rcTeardown.ctxWorkRepositoryDirectory,
                       "commit",
                       "--branch", rcTeardown.data.system,
                       "--subject", rcTeardown.data.timestamp,
                       "--add-metadata-string=\"timestamp=" ++
                         rcTeardown.data.timestamp ++ "\""]
              chroot := none
              work_directory :=
                some (if (fun _ => true) rcTeardown.checkout_directory then
                        rcTeardown.checkout_directory
                      else rcTeardown.system_directory) }] :=
  ⟨by decide, by decide,
   teardown_fixed_sequence (fun _ => true) rcTeardown (by decide) (by decide)⟩
